import Mathlib

/-
Formal model of `src/main.py`: a FastAPI contact store backed by a single
JSON file.  The embedding translates the store and handler logic of the
source; the HTTP routing layer, pydantic schema plumbing and the byte-level
JSON codec of the Python standard library are external collaborators and
are modelled at the level of their documented behavior.
-/

/-- JSON values as produced by Python json.load and consumed by json.dump.
Numbers are restricted to integers: the only numeric field this program
ever stores or inspects is the integer id. -/
inductive Json where
  | null
  | bool (b : Bool)
  | num (n : Int)
  | str (s : String)
  | arr (elems : List Json)
  | obj (fields : List (String × Json))

/-- State of the durable artifact contacts.json.  Python json.load either
returns the parsed document or raises JSONDecodeError; accordingly the file
is either absent, holds text json.load rejects (unparsable), or holds a
document whose parsed value is v.  This abstracts the byte-level codec of
the Python standard library, which is not code of this repository. -/
inductive FileState where
  | absent
  | unparsable (raw : String)
  | doc (v : Json)

/-- Python truthiness bool(x) of a JSON-decoded value, as tested by the
statements `if contacts:` (line 110) and `if not contacts:` (line 148). -/
def truthy : Json → Bool
  | .null => false
  | .bool b => b
  | .num n => !(n == 0)
  | .str s => !(s.data.isEmpty)
  | .arr xs => !(xs.isEmpty)
  | .obj fs => !(fs.isEmpty)

/-- Whether a loaded value is a sequence, i.e. a JSON array. -/
def isSeq : Json → Bool
  | .arr _ => true
  | _ => false

/-- load_contacts (main.py lines 82-90): if the file exists, json.load it,
returning [] on JSONDecodeError; if it does not exist, return []. -/
def load_contacts : FileState → Json
  | .absent => .arr []
  | .unparsable _ => .arr []
  | .doc v => v

/-- save_contacts (main.py lines 92-95): open(CONTACTS_FILE, 'w') followed
by json.dump replaces the file contents with the dump of v. -/
def save_contacts (v : Json) : FileState := .doc v

/-- Durable states the artifact passes through while save_contacts runs:
open(CONTACTS_FILE, 'w') first truncates the existing file to empty (an
empty file is not parseable JSON), and only then does json.dump write the
new document.  A failure between truncation and completion leaves the file
in the intermediate truncated state. -/
def saveWriteStates (old : FileState) (v : Json) : List FileState :=
  [old, .unparsable "", save_contacts v]

/-- Fuel-indexed scan implementing Python str.replace on character lists:
at each position, if the pattern matches there, emit the replacement and
skip past the match, otherwise keep the character.  Each step consumes at
least one character, so fuel equal to the input length is never exhausted
for a non-empty pattern. -/
def replaceFuel (pat repl : List Char) : Nat → List Char → List Char
  | _, [] => []
  | 0, l => l
  | n + 1, c :: cs =>
    if pat.isPrefixOf (c :: cs) then
      repl ++ replaceFuel pat repl n (cs.drop (pat.length - 1))
    else
      c :: replaceFuel pat repl n cs

/-- Python s.replace(pat, repl) for a non-empty pat: every non-overlapping
occurrence is replaced, scanning left to right. -/
def pyReplace (s pat repl : String) : String :=
  ⟨replaceFuel pat.data repl.data s.data.length s.data⟩

/-- Python s.startswith(pre). -/
def pyStartsWith (s pre : String) : Bool :=
  pre.data.isPrefixOf s.data

/-- HTTPException raised by the auth gate; the status is always 401 there. -/
structure HTTPError where
  status : Nat
  detail : String
deriving DecidableEq

/-- validate_token (main.py lines 42-55).  The dependency receives None when
the Authorization header is absent, and Python `if not authorization` also
treats the empty string as missing.  Line 51 computes the token with
authorization.replace("Bearer ", ""), which deletes every occurrence of
"Bearer ", not only the leading one. -/
def validate_token (API_TOKEN : String) : Option String → Except HTTPError String
  | none => .error ⟨401, "Authorization header is required"⟩
  | some a =>
    if a = "" then .error ⟨401, "Authorization header is required"⟩
    else if pyStartsWith a "Bearer " then
      let token := pyReplace a "Bearer " ""
      if token = API_TOKEN then .ok token
      else .error ⟨401, "Invalid token"⟩
    else .error ⟨401, "Invalid authorization format. Use \x27Bearer <token>\x27"⟩

/-- Request body of POST /api/contact (pydantic ContactRequest, main.py
lines 58-65).  EmailStr format validation happens in the HTTP layer (422)
before the handler runs and is not modelled. -/
structure ContactRequest where
  name : String
  email : String
  subject : String
  message : String
  phone : Option String := none
  company : Option String := none
  isDeleted : Bool := false
deriving DecidableEq

/-- Stored contact record (pydantic ContactResponse, main.py lines 68-77). -/
structure ContactResponse where
  id : Int
  name : String
  email : String
  subject : String
  message : String
  phone : Option String
  company : Option String
  createdAt : String
  isDeleted : Bool
deriving DecidableEq

/-- Encoding of an Optional[str] field: Python None dumps as JSON null. -/
def optStrJson : Option String → Json
  | none => .null
  | some s => .str s

/-- The dict built on main.py lines 117-119: contact.model_dump() yields the
request fields in declaration order, then id and createdAt are inserted;
json.dump writes keys in this dict insertion order. -/
def contactToJson (c : ContactResponse) : Json :=
  .obj [("name", .str c.name), ("email", .str c.email),
        ("subject", .str c.subject), ("message", .str c.message),
        ("phone", optStrJson c.phone), ("company", optStrJson c.company),
        ("isDeleted", .bool c.isDeleted),
        ("id", .num c.id), ("createdAt", .str c.createdAt)]

/-- A stored collection of records, dumped as the source dumps it. -/
def encodeContacts (l : List ContactResponse) : Json :=
  .arr (l.map contactToJson)

/-- Python exceptions raised inside the handler bodies.  Every one of them
is caught by the blanket `except Exception` and becomes an HTTP 500, so the
distinctions between the classes are not externally observable. -/
inductive PyErr where
  | typeError
  | keyError
  | attributeError
  | valueError
  | validationError
deriving DecidableEq

/-- Python dict lookup d[k] on a JSON object (parsed dicts have unique
keys, so first match is the dict entry). -/
def jlookup (k : String) : List (String × Json) → Option Json
  | [] => none
  | (k2, v) :: rest => if k2 = k then some v else jlookup k rest

/-- The subterm c["id"] of main.py line 111 for one element of the loaded
collection: anything that is not an object carrying an integer id raises
(TypeError or KeyError, both landing in the blanket handler).  Python
bool-as-int coercion for an id field is outside the record collections any
claim quantifies over and is not modelled. -/
def getIdInt : Json → Except PyErr Int
  | .obj fs =>
    match jlookup "id" fs with
    | some (.num n) => .ok n
    | some _ => .error .typeError
    | none => .error .keyError
  | _ => .error .typeError

/-- Evaluation of a generator or list comprehension that may raise. -/
def listMapE {α β : Type} (f : α → Except PyErr β) : List α → Except PyErr (List β)
  | [] => .ok []
  | a :: as =>
    match f a with
    | .error e => .error e
    | .ok b =>
      match listMapE f as with
      | .error e => .error e
      | .ok bs => .ok (b :: bs)

/-- Python max() over a realized sequence; max of an empty iterable raises
ValueError (unreachable in the source behind the truthiness guard). -/
def maxInts : List Int → Except PyErr Int
  | [] => .error .valueError
  | i :: rest => .ok (rest.foldl max i)

/-- Lines 109-111 of main.py: next_id = 1, and if contacts is truthy,
next_id = max(c["id"] for c in contacts) + 1.  Iterating a truthy non-list
loaded value either raises TypeError directly or yields elements on which
c["id"] raises; all such runs end in the blanket handler. -/
def nextIdOf (contacts : Json) : Except PyErr Int :=
  if truthy contacts then
    match contacts with
    | .arr xs =>
      match listMapE getIdInt xs with
      | .error e => .error e
      | .ok ids =>
        match maxInts ids with
        | .error e => .error e
        | .ok m => .ok (m + 1)
    | _ => .error .typeError
  else .ok 1

/-- contacts.append(contact_data) on main.py line 122; only lists have an
append method, every other loaded value raises AttributeError. -/
def pyAppend (contacts x : Json) : Except PyErr Json :=
  match contacts with
  | .arr xs => .ok (.arr (xs ++ [x]))
  | _ => .error .attributeError

/-- create_contact (main.py lines 101-130), after the auth dependency has
passed: load, allocate the next id, build the record with the
server-generated timestamp `now`, append, save, return the record.  The
.error results are exactly the executions that reach the blanket handler
and become HTTP 500. -/
def create_contact (file : FileState) (contact : ContactRequest) (now : String) :
    Except PyErr (ContactResponse × FileState) :=
  let contacts := load_contacts file
  match nextIdOf contacts with
  | .error e => .error e
  | .ok nid =>
    let resp : ContactResponse :=
      { id := nid, name := contact.name, email := contact.email,
        subject := contact.subject, message := contact.message,
        phone := contact.phone, company := contact.company,
        createdAt := now, isDeleted := contact.isDeleted }
    match pyAppend contacts (contactToJson resp) with
    | .error e => .error e
    | .ok contacts2 => .ok (resp, save_contacts contacts2)

/-- Extraction of a required str field for ContactResponse(**contact). -/
def asStr : Option Json → Option String
  | some (.str s) => some s
  | _ => none

/-- Extraction of an Optional[str] field with default None: an absent key
and a null value both give None. -/
def asOptStr : Option Json → Option (Option String)
  | some (.str s) => some (some s)
  | some .null => some none
  | none => some none
  | _ => none

/-- Extraction of the required int field. -/
def asInt : Option Json → Option Int
  | some (.num n) => some n
  | _ => none

/-- Extraction of the required bool field. -/
def asBool : Option Json → Option Bool
  | some (.bool b) => some b
  | _ => none

/-- ContactResponse(**contact) on main.py line 137: validate a stored dict
into the response model.  Extra keys are ignored (pydantic default); a
missing or ill-typed required field raises.  Pydantic lax-mode numeric
coercions are not modelled; no value this program stores needs them. -/
def contactFromJson : Json → Option ContactResponse
  | .obj fs =>
    match asInt (jlookup "id" fs), asStr (jlookup "name" fs),
          asStr (jlookup "email" fs), asStr (jlookup "subject" fs),
          asStr (jlookup "message" fs), asOptStr (jlookup "phone" fs),
          asOptStr (jlookup "company" fs), asStr (jlookup "createdAt" fs),
          asBool (jlookup "isDeleted" fs) with
    | some cid, some nm, some em, some sb, some ms, some ph, some co,
      some ca, some dl =>
      some { id := cid, name := nm, email := em, subject := sb,
             message := ms, phone := ph, company := co,
             createdAt := ca, isDeleted := dl }
    | _, _, _, _, _, _, _, _, _ => none
  | _ => none

/-- Evaluation of the comprehension on line 137; a None from any element
models the pydantic ValidationError path. -/
def listMapO {α β : Type} (f : α → Option β) : List α → Option (List β)
  | [] => some []
  | a :: as =>
    match f a with
    | none => none
    | some b =>
      match listMapO f as with
      | none => none
      | some bs => some (b :: bs)

/-- get_contacts (main.py lines 132-140): load, then re-validate each
stored record through ContactResponse.  Iterating a non-list loaded value
raises on iteration or on validation; every raise lands in the blanket
handler. -/
def get_contacts (file : FileState) : Except PyErr (List ContactResponse) :=
  match load_contacts file with
  | .arr xs =>
    match listMapO contactFromJson xs with
    | some cs => .ok cs
    | none => .error .validationError
  | _ => .error .typeError

/-- Response body of DELETE /api/contacts.  The early-return branch of the
source (line 149) builds a dict without the deleted_contacts key, modelled
as none. -/
structure DeleteResult where
  message : String
  deleted_count : Nat
  deleted_contacts : Option Json

/-- len(contacts) on main.py line 152; lists, dicts and strings have a
length, other loaded values raise TypeError. -/
def pyLen : Json → Except PyErr Nat
  | .arr xs => .ok xs.length
  | .obj fs => .ok fs.length
  | .str s => .ok s.length
  | _ => .error .typeError

/-- contacts.copy() on main.py line 153; lists and dicts have a copy
method, other loaded values raise AttributeError. -/
def pyCopy : Json → Except PyErr Json
  | .arr xs => .ok (.arr xs)
  | .obj fs => .ok (.obj fs)
  | _ => .error .attributeError

/-- contacts.clear() on main.py line 156. -/
def pyClear : Json → Except PyErr Json
  | .arr _ => .ok (.arr [])
  | .obj _ => .ok (.obj [])
  | _ => .error .attributeError

/-- delete_all_contacts (main.py lines 142-168), after the auth dependency:
load; if the collection is falsy, return the zero-removed response without
saving; otherwise record the count and a copy, clear, save the cleared
collection, and return the count and the copy. -/
def delete_all_contacts (file : FileState) :
    Except PyErr (DeleteResult × FileState) :=
  let contacts := load_contacts file
  if truthy contacts then
    match pyLen contacts with
    | .error e => .error e
    | .ok n =>
      match pyCopy contacts with
      | .error e => .error e
      | .ok snapshot =>
        match pyClear contacts with
        | .error e => .error e
        | .ok cleared =>
          .ok ({ message := "All " ++ toString n ++ " contacts deleted successfully",
                 deleted_count := n, deleted_contacts := some snapshot },
               save_contacts cleared)
  else
    .ok ({ message := "No contacts to delete", deleted_count := 0,
           deleted_contacts := none }, file)

/-- Modelled from the spec: allocateNextId of section 4.1, "one greater
than the maximum identifier present, or 1 if the collection is empty",
stated on record collections; compared against create_contact. -/
def allocateNextId (l : List ContactResponse) : Int :=
  match l.map (fun c => c.id) with
  | [] => 1
  | i :: rest => rest.foldl max i + 1

/-- A concrete record used to instantiate hypotheses at concrete inputs. -/
def exContact : ContactResponse :=
  { id := 1, name := "A", email := "a@b.com", subject := "S", message := "M",
    phone := none, company := none,
    createdAt := "2024-01-01T00:00:00", isDeleted := false }

lemma getIdInt_contactToJson (c : ContactResponse) :
    getIdInt (contactToJson c) = .ok c.id := rfl

lemma listMapE_getIdInt (l : List ContactResponse) :
    listMapE getIdInt (l.map contactToJson) = .ok (l.map fun c => c.id) := by
  induction l with
  | nil => rfl
  | cons c cs ih => simp [List.map_cons, listMapE, getIdInt_contactToJson, ih]

lemma contactFromJson_contactToJson (c : ContactResponse) :
    contactFromJson (contactToJson c) = some c := by
  obtain ⟨cid, nm, em, sb, ms, ph, co, ca, dl⟩ := c
  cases ph <;> cases co <;> rfl

lemma listMapO_contactFromJson (l : List ContactResponse) :
    listMapO contactFromJson (l.map contactToJson) = some l := by
  induction l with
  | nil => rfl
  | cons c cs ih =>
    simp [List.map_cons, listMapO, contactFromJson_contactToJson c, ih]

/-- C4 (amended): load never raises; an absent or unparsable artifact loads
as the empty sequence, and a create issued against such an artifact assigns
identifier 1; a parseable artifact loads as its parsed value, which need
not be a sequence. -/
theorem load_normalizes_and_next_create_id_one :
    load_contacts .absent = .arr []
  ∧ (∀ s, load_contacts (.unparsable s) = .arr [])
  ∧ (∀ v, load_contacts (.doc v) = v)
  ∧ (∀ s req now, (create_contact (.unparsable s) req now).map (fun p => p.1.id) = .ok 1)
  ∧ (∀ req now, (create_contact .absent req now).map (fun p => p.1.id) = .ok 1) :=
  ⟨rfl, fun _ => rfl, fun _ => rfl, fun _ _ _ => rfl, fun _ _ => rfl⟩

/-- C4 (counterexample): a parseable artifact holding the JSON number 42 is
loaded as that number, not as a sequence, so load does not return a
sequence for every state of the backing medium. -/
theorem load_doc_num_not_seq :
    load_contacts (.doc (.num 42)) = .num 42
  ∧ isSeq (load_contacts (.doc (.num 42))) = false :=
  ⟨rfl, rfl⟩

/-- C10: a parseable artifact is returned exactly as parsed, sequence or
not (shown at a JSON object and a JSON number); only absence and parse
failure are normalized to the empty collection. -/
theorem load_returns_parsed_value :
    (∀ v, load_contacts (.doc v) = v)
  ∧ load_contacts (.doc (.obj [("a", .num 1)])) = .obj [("a", .num 1)]
  ∧ load_contacts (.doc (.num 7)) = .num 7
  ∧ load_contacts .absent = .arr []
  ∧ (∀ s, load_contacts (.unparsable s) = .arr []) :=
  ⟨fun _ => rfl, rfl, rfl, rfl, fun _ => rfl⟩

/-- C5: creating against a stored collection of records assigns the
identifier allocateNextId of that collection, one greater than the maximum
identifier present; in particular it assigns 1 on the empty collection. -/
theorem create_assigns_allocateNextId (l : List ContactResponse)
    (req : ContactRequest) (now : String) :
    (create_contact (.doc (encodeContacts l)) req now).map (fun p => p.1.id)
      = .ok (allocateNextId l)
  ∧ (create_contact (.doc (.arr [])) req now).map (fun p => p.1.id) = .ok 1 := by
  constructor
  · cases l with
    | nil => rfl
    | cons c cs =>
      have h := listMapE_getIdInt (c :: cs)
      simp only [List.map_cons] at h
      simp [create_contact, load_contacts, encodeContacts, nextIdOf, truthy,
            maxInts, pyAppend, allocateNextId, Except.map, List.map_cons, h]
  · rfl

/-- C6: saving an encoded collection of records and then loading returns
the same collection, same order; re-validating through the list endpoint
recovers exactly the saved records with the same field values. -/
theorem save_load_roundtrip (l : List ContactResponse) :
    load_contacts (save_contacts (encodeContacts l)) = encodeContacts l
  ∧ get_contacts (save_contacts (encodeContacts l)) = .ok l := by
  refine ⟨rfl, ?_⟩
  simp [get_contacts, save_contacts, load_contacts, encodeContacts,
        listMapO_contactFromJson l]

/-- C8: clear-all on a non-empty stored collection of records returns the
success message, the count of removed records, and exactly the removed
records, and saves the emptied collection; on the empty collection it is
not an error and reports zero removed. -/
theorem delete_all_spec (l : List ContactResponse) (h : l ≠ []) :
    delete_all_contacts (.doc (encodeContacts l))
      = .ok ({ message := "All " ++ toString l.length ++ " contacts deleted successfully",
               deleted_count := l.length,
               deleted_contacts := some (encodeContacts l) },
             save_contacts (.arr []))
  ∧ delete_all_contacts (.doc (.arr []))
      = .ok ({ message := "No contacts to delete", deleted_count := 0,
               deleted_contacts := none }, .doc (.arr [])) := by
  constructor
  · cases l with
    | nil => exact absurd rfl h
    | cons c cs =>
      simp [delete_all_contacts, load_contacts, encodeContacts, truthy,
            pyLen, pyCopy, pyClear, save_contacts, List.map_cons]
  · rfl

/-- C8 (witness): clear-all evaluated on a concrete one-record collection
and on the empty collection. -/
theorem delete_all_spec_witness :
    delete_all_contacts (.doc (encodeContacts [exContact]))
      = .ok ({ message := "All " ++ toString ([exContact].length) ++ " contacts deleted successfully",
               deleted_count := [exContact].length,
               deleted_contacts := some (encodeContacts [exContact]) },
             save_contacts (.arr []))
  ∧ delete_all_contacts (.doc (.arr []))
      = .ok ({ message := "No contacts to delete", deleted_count := 0,
               deleted_contacts := none }, .doc (.arr [])) :=
  delete_all_spec [exContact] (by simp)

/-- C9: whenever the loaded collection is empty (falsy), clear-all returns
the zero-removed response with the file state passed through unchanged, and
since every save produces a parsed document, an absent file staying absent
shows that no save ran and the file was not created. -/
theorem delete_all_empty_frame :
    (∀ fs, truthy (load_contacts fs) = false →
      delete_all_contacts fs
        = .ok ({ message := "No contacts to delete", deleted_count := 0,
                 deleted_contacts := none }, fs))
  ∧ (∀ v, save_contacts v ≠ .absent) := by
  constructor
  · intro fs h
    simp [delete_all_contacts, h]
  · intro v h
    simp [save_contacts] at h

/-- C9 (witness): clear-all on an absent backing file leaves it absent. -/
theorem delete_all_empty_frame_witness :
    delete_all_contacts .absent
      = .ok ({ message := "No contacts to delete", deleted_count := 0,
               deleted_contacts := none }, .absent) :=
  delete_all_empty_frame.1 .absent rfl

/-- C3 (counterexample): during a save of the empty collection over a
one-record artifact, the file passes through the truncated-empty state,
which is neither the prior artifact nor the completed new one and loads as
the empty collection, while the prior artifact did not: a failure after
truncation loses the prior contents, so saves are not all-or-nothing. -/
theorem save_not_atomic :
    FileState.unparsable "" ∈ saveWriteStates (.doc (encodeContacts [exContact])) (.arr [])
  ∧ FileState.unparsable "" ≠ .doc (encodeContacts [exContact])
  ∧ FileState.unparsable "" ≠ save_contacts (.arr [])
  ∧ load_contacts (.unparsable "") = .arr []
  ∧ load_contacts (.doc (encodeContacts [exContact])) ≠ .arr [] := by
  refine ⟨by simp [saveWriteStates], by simp, by simp [save_contacts], rfl, ?_⟩
  simp [load_contacts, encodeContacts]

/-- C3 (amended): save writes in place: it first truncates the durable
artifact to an empty, unparsable state and only then writes the new
document; a completed save leaves exactly the new contents, but a failure
after truncation leaves the empty file, which loads as the empty
collection regardless of the prior artifact. -/
theorem save_write_sequence (old : FileState) (v : Json) :
    saveWriteStates old v = [old, .unparsable "", .doc v]
  ∧ (saveWriteStates old v).getLast? = some (save_contacts v)
  ∧ load_contacts (.unparsable "") = .arr [] :=
  ⟨rfl, rfl, rfl⟩

/-- C2 (counterexample): with secret "abc", the header "Bearer Bearer abc"
is accepted and the token "abc" returned, although the remainder of the
header after the prefix "Bearer " is "Bearer abc", not the secret: line 51
deletes every occurrence of "Bearer " from the header. -/
theorem validate_token_accepts_nonremainder :
    validate_token "abc" (some "Bearer Bearer abc") = .ok "abc"
  ∧ String.mk (("Bearer Bearer abc").data.drop 7) = "Bearer abc"
  ∧ ("Bearer abc" : String) ≠ "abc" :=
  ⟨rfl, rfl, by decide⟩

/-- C2 (amended): validation succeeds, returning token t, iff the header is
present and non-empty, starts with "Bearer ", and deleting every occurrence
of "Bearer " from it yields exactly the configured secret; the returned
token then equals the secret. -/
theorem validate_token_success_iff (secret : String) (auth : Option String)
    (t : String) :
    validate_token secret auth = .ok t
      ↔ ∃ a, auth = some a ∧ a ≠ "" ∧ pyStartsWith a "Bearer " = true
          ∧ pyReplace a "Bearer " "" = secret ∧ t = secret := by
  cases auth with
  | none => simp [validate_token]
  | some a =>
    by_cases h1 : a = ""
    · subst h1
      simp [validate_token]
    · by_cases h2 : pyStartsWith a "Bearer " = true
      · by_cases h3 : pyReplace a "Bearer " "" = secret
        · have hv : validate_token secret (some a) = .ok secret := by
            simp [validate_token, h1, h2, h3]
          rw [hv]
          constructor
          · intro h
            injection h with ht
            exact ⟨a, rfl, h1, h2, h3, ht.symm⟩
          · rintro ⟨a2, ha2, -, -, -, ht⟩
            rw [ht]
        · simp [validate_token, h1, h2, h3]
      · simp [validate_token, h1, h2]

/-- C2 (witness): the canonical header for secret "abc" is accepted. -/
theorem validate_token_success_iff_witness :
    validate_token "abc" (some "Bearer abc") = .ok "abc" :=
  (validate_token_success_iff "abc" (some "Bearer abc") "abc").mpr
    ⟨"Bearer abc", rfl, by decide, by decide, by decide, rfl⟩

/-- C7 (counterexample): the empty header lacks the "Bearer " prefix yet
fails with the missing-header message instead of the invalid-format one,
and "Bearer Bearer abc" has the correct prefix with a wrong remainder yet
does not fail at all. -/
theorem auth_messages_counterexample :
    pyStartsWith "" "Bearer " = false
  ∧ validate_token "abc" (some "")
      = .error ⟨401, "Authorization header is required"⟩
  ∧ ("Authorization header is required" : String)
      ≠ "Invalid authorization format. Use \x27Bearer <token>\x27"
  ∧ pyStartsWith "Bearer Bearer abc" "Bearer " = true
  ∧ String.mk (("Bearer Bearer abc").data.drop 7) ≠ "abc"
  ∧ validate_token "abc" (some "Bearer Bearer abc") = .ok "abc" :=
  ⟨rfl, rfl, by decide, rfl, by decide, rfl⟩

/-- C7 (amended): a missing or empty Authorization header fails with status
401 and message "Authorization header is required"; a non-empty header
lacking the "Bearer " prefix fails with 401 and the invalid-format message;
a header with the prefix whose text, after deleting every occurrence of
"Bearer ", differs from the secret fails with 401 and message
"Invalid token". -/
theorem auth_failure_messages (secret : String) :
    validate_token secret none
      = .error ⟨401, "Authorization header is required"⟩
  ∧ validate_token secret (some "")
      = .error ⟨401, "Authorization header is required"⟩
  ∧ (∀ a, a ≠ "" → pyStartsWith a "Bearer " = false →
      validate_token secret (some a)
        = .error ⟨401, "Invalid authorization format. Use \x27Bearer <token>\x27"⟩)
  ∧ (∀ a, pyStartsWith a "Bearer " = true →
      pyReplace a "Bearer " "" ≠ secret →
      validate_token secret (some a) = .error ⟨401, "Invalid token"⟩) := by
  refine ⟨rfl, rfl, ?_, ?_⟩
  · intro a h1 h2
    simp [validate_token, h1, h2]
  · intro a h2 h3
    have h1 : a ≠ "" := by
      intro he
      rw [he] at h2
      exact absurd h2 (by decide)
    simp [validate_token, h1, h2, h3]

/-- C7 (witness): the three failure messages at concrete headers with
secret "abc". -/
theorem auth_failure_messages_witness :
    validate_token "abc" (some "Token xyz")
      = .error ⟨401, "Invalid authorization format. Use \x27Bearer <token>\x27"⟩
  ∧ validate_token "abc" (some "Bearer xyz")
      = .error ⟨401, "Invalid token"⟩ :=
  ⟨(auth_failure_messages "abc").2.2.1 "Token xyz" (by decide) (by decide),
   (auth_failure_messages "abc").2.2.2 "Bearer xyz" (by decide) (by decide)⟩
